import Mathlib

/-!
Shallow embedding of `src/main.py` (a FastAPI micro-service that scores the
"livability" of a street address).  Python floats are modelled as exact
rationals (`ℚ`), Python `int` as `Int`/`Nat`, Python's `None`-able values as
`Option`, and raised exceptions as `Except PyErr`.  Outbound HTTP calls are
modelled by oracle values describing the collaborator's response, so every
function of the source becomes a pure Lean function of its inputs and of
those oracles.
-/

namespace Main

/-! ## Scoring core: `normalize`, `CRITERIA_WEIGHTS`, `calculate_rating`,
`evaluate_neighborhood` (src/main.py lines 338-385) -/

/-- The eight metric keys of a `MetricRecord` (the keys of the Python dicts
`CRITERIA_WEIGHTS` and `mock_data`). -/
inductive Metric where
  | population_density
  | crime_rate
  | income
  | residential_ratio
  | noise_level
  | healthcare_access
  | community_engagement
  | environmental_quality
deriving DecidableEq, Repr

/-- The keys in the insertion order of the Python dict `CRITERIA_WEIGHTS`. -/
def Metric.all : List Metric :=
  [.population_density, .crime_rate, .income, .residential_ratio,
   .noise_level, .healthcare_access, .community_engagement, .environmental_quality]

/-- A metric record holding all 8 keys (the dict built by
`get_neighbourhood_data`, consumed by `evaluate_neighborhood`). -/
structure MetricRecord where
  population_density : ℚ
  crime_rate : ℚ
  income : ℚ
  residential_ratio : ℚ
  noise_level : ℚ
  healthcare_access : ℚ
  community_engagement : ℚ
  environmental_quality : ℚ
deriving DecidableEq, Repr

/-- Look a metric up in a record (`data[k]`). -/
def MetricRecord.get (data : MetricRecord) : Metric → ℚ
  | .population_density => data.population_density
  | .crime_rate => data.crime_rate
  | .income => data.income
  | .residential_ratio => data.residential_ratio
  | .noise_level => data.noise_level
  | .healthcare_access => data.healthcare_access
  | .community_engagement => data.community_engagement
  | .environmental_quality => data.environmental_quality

/-- `CRITERIA_WEIGHTS` (src/main.py lines 338-347). -/
def CRITERIA_WEIGHTS : Metric → ℚ
  | .population_density => 0.2
  | .crime_rate => 0.2
  | .income => 0.15
  | .residential_ratio => 0.08
  | .noise_level => 0.05
  | .healthcare_access => 0.3
  | .community_engagement => 0.1
  | .environmental_quality => 0.12

/-- `normalize(value, min_val, max_val, invert=False)` (src/main.py 349-351). -/
def normalize (value min_val max_val : ℚ) (invert : Bool := false) : ℚ :=
  let norm := (value - min_val) / (max_val - min_val)
  if invert then 1 - norm else norm

/-- `calculate_rating(score)` (src/main.py 353-363). -/
def calculate_rating (score : ℚ) : String :=
  if score ≥ 1.5 then "Excellent"
  else if score ≥ 0.8 then "Good"
  else if score ≥ 0.4 then "Average"
  else if score ≥ 0.2 then "Poor"
  else "Very Poor"

/-- The dict `normalized_scores` built inside `evaluate_neighborhood`
(src/main.py 367-376), with the ranges inlined exactly as in the source. -/
def normalized_scores (data : MetricRecord) : Metric → ℚ
  | .population_density => normalize data.population_density 100 10000
  | .crime_rate => normalize data.crime_rate 0 500 true
  | .income => normalize data.income 20000 150000
  | .residential_ratio => normalize data.residential_ratio 0 1
  | .noise_level => normalize data.noise_level 0 100 true
  | .healthcare_access => normalize data.healthcare_access 0 100
  | .community_engagement => normalize data.community_engagement 0 100
  | .environmental_quality => normalize data.environmental_quality 0 100

/-- The return value of `evaluate_neighborhood`: `{ "rating": …, "score": … }`. -/
structure EvaluationResult where
  rating : String
  score : ℚ
deriving DecidableEq, Repr

/-- `evaluate_neighborhood(data)` (src/main.py 365-385): the weighted sum
`sum(CRITERIA_WEIGHTS[k] * normalized_scores[k] for k in CRITERIA_WEIGHTS)`
iterates the keys in the dict's insertion order (`Metric.all`). -/
def evaluate_neighborhood (data : MetricRecord) : EvaluationResult :=
  let total_score := (Metric.all.map fun k => CRITERIA_WEIGHTS k * normalized_scores data k).sum
  { rating := calculate_rating total_score, score := total_score }

/-! Spec-side formulation of the weighted sum for C1: the normalization
table and the weight list exactly as the spec states them, applied key by
key and summed. -/

/-- The spec's normalization table, `(min, max, invert)` per metric
(spec §4.4: "Normalization table (metric: min, max, invert)"). -/
def NORMALIZATION_TABLE : Metric → ℚ × ℚ × Bool
  | .population_density => (100, 10000, false)
  | .crime_rate => (0, 500, true)
  | .income => (20000, 150000, false)
  | .residential_ratio => (0, 1, false)
  | .noise_level => (0, 100, true)
  | .healthcare_access => (0, 100, false)
  | .community_engagement => (0, 100, false)
  | .environmental_quality => (0, 100, false)

/-- The spec's weights (.20,.20,.15,.08,.05,.30,.10,.12). -/
def spec_weight : Metric → ℚ
  | .population_density => 0.20
  | .crime_rate => 0.20
  | .income => 0.15
  | .residential_ratio => 0.08
  | .noise_level => 0.05
  | .healthcare_access => 0.30
  | .community_engagement => 0.10
  | .environmental_quality => 0.12

/-- The spec's weighted sum `Σ weight[k] * normalized[k]` over the 8 keys,
each metric normalized with its `(min, max, invert)` table entry. -/
def spec_weighted_sum (data : MetricRecord) : ℚ :=
  (Metric.all.map fun k =>
    spec_weight k *
      normalize (data.get k) (NORMALIZATION_TABLE k).1 (NORMALIZATION_TABLE k).2.1
        (NORMALIZATION_TABLE k).2.2).sum

/-- The golden-fixture record of the spec's "Weighted sum example". -/
def goldenRecord : MetricRecord :=
  { population_density := 5000, crime_rate := 50, income := 60000,
    residential_ratio := 0.8, noise_level := 30, healthcare_access := 85,
    community_engagement := 70, environmental_quality := 75 }

/-! ## HTTP layer (src/main.py 90-99) and Python error model.
A Python exception is a `PyErr`; an outbound `requests.get` call is an
oracle `ApiResponse` value describing what the collaborator did. -/

/-- The Python exceptions the embedded code can raise. -/
inductive PyErr where
  /-- `requests.exceptions.RequestException` — connection error, timeout, or
  the `requests.exceptions.HTTPError` that `raise_for_status()` raises. -/
  | requestException
  /-- The fastapi `HTTPException` that `call_api` raises on a non-200 status
  (src/main.py 96-97); not a subclass of `RequestException`. -/
  | httpException (status : Nat)
  /-- `AttributeError`: calling `.get(...)` on a `str` value. -/
  | attributeError
  /-- `IndexError`: `pop_data[1][0]` on an empty inner list. -/
  | indexError
deriving DecidableEq, Repr

/-- What one outbound `requests.get` produced: a transport failure
(connection error or timeout, raising `RequestException`), or an HTTP
response with a status code and a decoded JSON body. -/
inductive ApiResponse (α : Type) where
  | transportError
  | response (status : Nat) (body : α)

/-- `call_api(url, headers, params)` (src/main.py 90-99): a transport error
from `requests.get` propagates as a `RequestException`; a non-200 status
raises a fastapi `HTTPException`; otherwise the JSON body is returned. -/
def call_api {α : Type} (resp : ApiResponse α) : Except PyErr α :=
  match resp with
  | .transportError => .error .requestException
  | .response status body =>
    if status ≠ 200 then .error (.httpException status) else .ok body

/-- The `requests.get(...); response.raise_for_status()` pattern used by
`get_urban_area_density` and `get_country_density` (src/main.py 156-157,
166-167, 204-211): a transport error raises `RequestException`, and
`raise_for_status()` raises `HTTPError` (a `RequestException`) on a 4xx/5xx
status. -/
def get_and_raise_for_status {α : Type} (resp : ApiResponse α) : Except PyErr α :=
  match resp with
  | .transportError => .error .requestException
  | .response status body =>
    if 400 ≤ status then .error .requestException else .ok body

/-! ## Address details and the string-or-dict union returned by
`get_valid_address_details` (src/main.py 66-88, 101-132) -/

/-- The fields of the `address_details` dict that the metric providers read
with `.get(...)`: `country` from nominatim's address object, plus the `lat`
and `lon` the validator copies in (src/main.py 124-126).  `none` models an
absent key. -/
structure AddressDetails where
  country : Option String
  lat : Option String
  lon : Option String
deriving DecidableEq, Repr

/-- `get_valid_address_details` returns either the rejection message (a
`str`) or the `address_details` dict — the untyped union the callers branch
on with `type(...) == str` (src/main.py 32, 79-83). -/
inductive DetailsOrMsg where
  | msg (s : String)
  | details (d : AddressDetails)
deriving DecidableEq, Repr

/-- The dict keys the providers read with `.get(...)`: `'lat'`, `'lon'`,
`'country'`. -/
inductive AddrKey where
  | lat
  | lon
  | country
deriving DecidableEq, Repr

/-- Python's `x.get(key)` on the union: on a `str` it raises
`AttributeError` (a `str` has no `.get`); on the dict it returns the field
or `None`. -/
def DetailsOrMsg.pyGet (o : DetailsOrMsg) (key : AddrKey) : Except PyErr (Option String) :=
  match o with
  | .msg _ => .error .attributeError
  | .details d =>
    .ok (match key with
         | .lat => d.lat
         | .lon => d.lon
         | .country => d.country)

/-- Python truthiness of a possibly-missing string (`if not lat`): falsy
when absent or empty. -/
def strTruthy : Option String → Bool
  | none => false
  | some s => !s.isEmpty

/-- Python truthiness of a possibly-missing float (`if population and
area`): falsy when absent or zero. -/
def qTruthy : Option ℚ → Bool
  | none => false
  | some v => v != 0

/-- Python `int(q)`: truncation toward zero. -/
def pyInt (q : ℚ) : Int := Int.tdiv q.num q.den

/-! ## Population-density provider (src/main.py 137-217) -/

/-- The teleport locations response, reduced to the chain
`data.get('_links', {}).get('ua:item', {}).get('href')` (src/main.py 159). -/
structure LocationsJson where
  uaItemHref : Option String

/-- One entry of a teleport category's `data` list: a `label` and an
optional `float_value` (src/main.py 172-180). -/
structure CategoryItem where
  label : String
  float_value : Option ℚ

/-- One teleport category: a `label` and a `data` list. -/
structure Category where
  label : String
  data : List CategoryItem

/-- The teleport urban-area details response: its `categories` list. -/
structure DetailsJson where
  categories : List Category

/-- The nested extraction loop of `get_urban_area_density` (src/main.py
171-180): scan the categories, keeping the last `float_value` labelled
`Population` resp. `Area in square kilometers`. -/
def extractPopArea (cats : List Category) : Option ℚ × Option ℚ :=
  cats.foldl
    (fun pa c =>
      if c.label = "Population" then
        (c.data.foldl
          (fun p item => if item.label = "Population" then item.float_value else p) pa.1,
         pa.2)
      else if c.label = "Geography" then
        (pa.1,
         c.data.foldl
          (fun a item =>
            if item.label = "Area in square kilometers" then item.float_value else a) pa.2)
      else pa)
    (none, none)

/-- `get_urban_area_density(address_details)` (src/main.py 147-185).  The
`.get` calls run before the `try:`, so an `AttributeError` propagates; every
`RequestException` inside the `try:` is caught and turns into `None`; a
missing link, or a falsy population or area, also yield `None`. -/
def get_urban_area_density (address_details : DetailsOrMsg)
    (locResp : ApiResponse LocationsJson) (detResp : ApiResponse DetailsJson) :
    Except PyErr (Option Int) :=
  match address_details.pyGet .lat, address_details.pyGet .lon with
  | .error e, _ => .error e
  | _, .error e => .error e
  | .ok lat, .ok lon =>
    if !strTruthy lat || !strTruthy lon then .ok none
    else
      match get_and_raise_for_status locResp with
      | .error _ => .ok none
      | .ok data =>
        if !strTruthy data.uaItemHref then .ok none
        else
          match get_and_raise_for_status detResp with
          | .error _ => .ok none
          | .ok details =>
            let pa := extractPopArea details.categories
            if qTruthy pa.1 && qTruthy pa.2 then
              .ok (some (pyInt (pa.1.getD 0 / pa.2.getD 0)))
            else .ok none

/-- A World-Bank indicator response: a JSON array whose second element is a
list of records, each with a nullable `value` field (src/main.py 206-212). -/
def WBJson : Type := List (List (Option ℚ))

/-- `pop_data[1][0]['value'] if len(pop_data) > 1 else None` (src/main.py
207, 212): an empty inner list raises `IndexError` (caught by the caller's
`except`). -/
def wbValue (j : WBJson) : Except PyErr (Option ℚ) :=
  match j with
  | _ :: second :: _ =>
    match second with
    | [] => .error .indexError
    | v :: _ => .ok v
  | _ => .ok none

/-- The `pycountry.countries.search_fuzzy(country_name)[0].alpha_3` lookup
(src/main.py 194-195): `none` models the `LookupError` the `except` catches. -/
def FuzzyLookup : Type := Option String

/-- `get_country_density(address_details)` (src/main.py 187-217). -/
def get_country_density (address_details : DetailsOrMsg) (fuzzyCode : FuzzyLookup)
    (popResp areaResp : ApiResponse WBJson) : Except PyErr (Option Int) :=
  match address_details.pyGet .country with
  | .error e => .error e
  | .ok country =>
    if (country.getD "").isEmpty then .ok none
    else
      match fuzzyCode with
      | none => .ok none
      | some _country_code =>
        match get_and_raise_for_status popResp with
        | .error _ => .ok none
        | .ok pop_data =>
          match wbValue pop_data with
          | .error _ => .ok none
          | .ok population =>
            match get_and_raise_for_status areaResp with
            | .error _ => .ok none
            | .ok area_data =>
              match wbValue area_data with
              | .error _ => .ok none
              | .ok area =>
                if qTruthy population && qTruthy area then
                  .ok (some (pyInt (population.getD 0 / area.getD 0)))
                else .ok none

/-- `get_population_density_score(address_details)` (src/main.py 137-145):
urban-area density, else country density, else the constant 5000. -/
def get_population_density_score (address_details : DetailsOrMsg)
    (locResp : ApiResponse LocationsJson) (detResp : ApiResponse DetailsJson)
    (fuzzyCode : FuzzyLookup) (popResp areaResp : ApiResponse WBJson) :
    Except PyErr Int :=
  match get_urban_area_density address_details locResp detResp with
  | .error e => .error e
  | .ok (some density) => .ok density
  | .ok none =>
    match get_country_density address_details fuzzyCode popResp areaResp with
    | .error e => .error e
    | .ok density => .ok (density.getD 5000)

/-! ## Crime provider (src/main.py 220-251) -/

/-- `get_crime_score(address_details)` (src/main.py 220-251): missing
coordinates fall back to 25; the `try:` wraps a `call_api` call and the
`except` catches only `requests.exceptions.RequestException`, so the
`HTTPException` that `call_api` raises on a non-200 status propagates. -/
def get_crime_score (address_details : DetailsOrMsg)
    (crimeResp : ApiResponse (List Unit)) : Except PyErr ℚ :=
  match address_details.pyGet .lat, address_details.pyGet .lon with
  | .error e, _ => .error e
  | _, .error e => .error e
  | .ok lat, .ok lon =>
    if !strTruthy lat || !strTruthy lon then .ok 25
    else
      match call_api crimeResp with
      | .ok crimes => .ok (min ((crimes.length : ℚ) / 500 * 100) 100)
      | .error .requestException => .ok 25
      | .error e => .error e

/-! ## Residential-ratio provider (src/main.py 282-321) -/

/-- One element of the Overpass response: the value of
`el.get('tags', {}).get('building', '')`, `none` when absent. -/
structure OsmElement where
  building_tag : Option String

/-- The Overpass response: its `elements` list. -/
structure OverpassJson where
  elements : List OsmElement

/-- Python's `str.lower()`, written out over the character list (building
tags are ASCII, where `Char.toLower` and Python agree). -/
def pyLower (s : String) : String := ⟨s.data.map Char.toLower⟩

/-- The lowercased building tags of a response (src/main.py 313). -/
def buildingTags (data : OverpassJson) : List String :=
  data.elements.map fun el => pyLower (el.building_tag.getD "")

/-- `'residential' in b or b in ['house', 'apartments', 'detached',
'semidetached_house']` (src/main.py 318). -/
def isResidentialB (b : String) : Bool :=
  decide ("residential".data <:+: b.data) ||
    decide (b ∈ ["house", "apartments", "detached", "semidetached_house"])

/-- `get_residential_ratio(address, radius=200)` (src/main.py 282-321): no
`try:` at all, so every failure of the `call_api` call propagates; an empty
building list yields 0.0. -/
def get_residential_ratio (address : DetailsOrMsg)
    (overpassResp : ApiResponse OverpassJson) : Except PyErr ℚ :=
  match address.pyGet .lat, address.pyGet .lon with
  | .error e, _ => .error e
  | _, .error e => .error e
  | .ok _lat, .ok _lon =>
    match call_api overpassResp with
    | .error e => .error e
    | .ok data =>
      let building_tags := buildingTags data
      if building_tags.isEmpty then .ok 0
      else
        let residential_count := building_tags.countP isResidentialB
        let total_count := building_tags.length
        if 0 < total_count then .ok ((residential_count : ℚ) / (total_count : ℚ))
        else .ok 0

/-! ## Address validator (src/main.py 101-132, 66-83) -/

/-- The `address` sub-object of a nominatim result, reduced to the one field
the providers later read. -/
structure NomAddress where
  country : Option String

/-- One nominatim search result: its `address` object, `lat`, `lon` and
place `type` (src/main.py 122-130). -/
structure NominatimResult where
  address : NomAddress
  lat : String
  lon : String
  type : String

/-- The empty dict `{}` returned beside a rejection (src/main.py 120, 132). -/
def emptyDetails : AddressDetails := { country := none, lat := none, lon := none }

/-- `get_address_details(address)` (src/main.py 101-132): geocode via
`call_api` (whose failures propagate), reject with a "was not found" message
when no result comes back, accept only the place types `residential`,
`postcode`, `city`, and reject anything else with an "is invalid" message. -/
def get_address_details (address : String)
    (nomResp : ApiResponse (List NominatimResult)) :
    Except PyErr (AddressDetails × Bool × String) :=
  match call_api nomResp with
  | .error e => .error e
  | .ok data =>
    match data with
    | [] => .ok (emptyDetails, false, "The address: " ++ address ++ " was not found")
    | result :: _ =>
      let address_details : AddressDetails :=
        { country := result.address.country, lat := some result.lat, lon := some result.lon }
      if result.type ∈ ["residential", "postcode", "city"] then
        .ok (address_details, true, "Address is valid")
      else
        .ok (emptyDetails, false,
          "The address: " ++ address ++ " is invalid, please enter a residential address")

/-- `get_valid_address_details(address)` (src/main.py 66-83): the rejection
message when invalid, the details dict when valid. -/
def get_valid_address_details (address : String)
    (nomResp : ApiResponse (List NominatimResult)) : Except PyErr DetailsOrMsg :=
  match get_address_details address nomResp with
  | .error e => .error e
  | .ok (details, is_valid, message) =>
    if is_valid then .ok (.details details) else .ok (.msg message)

/-! ## Aggregation and the batch endpoint (src/main.py 38-64, 85-88,
324-336, 387-393) -/

/-- The collaborator responses one address's metric fetches consult. -/
structure CollabWorld where
  locResp : ApiResponse LocationsJson
  detResp : ApiResponse DetailsJson
  fuzzyCode : FuzzyLookup
  popResp : ApiResponse WBJson
  areaResp : ApiResponse WBJson
  crimeResp : ApiResponse (List Unit)
  overpassResp : ApiResponse OverpassJson

/-- `get_neighbourhood_data(address_details)` (src/main.py 324-336): the
dict literal evaluates its entries in order — population density, crime,
the fixed income 60000, residential ratio, then the stubbed constants. -/
def get_neighbourhood_data (address_details : DetailsOrMsg) (w : CollabWorld) :
    Except PyErr MetricRecord :=
  match get_population_density_score address_details w.locResp w.detResp
      w.fuzzyCode w.popResp w.areaResp with
  | .error e => .error e
  | .ok pd =>
    match get_crime_score address_details w.crimeResp with
    | .error e => .error e
    | .ok cr =>
      match get_residential_ratio address_details w.overpassResp with
      | .error e => .error e
      | .ok rr =>
        .ok { population_density := (pd : ℚ), crime_rate := cr, income := 60000,
              residential_ratio := rr, noise_level := 30, healthcare_access := 85,
              community_engagement := 70, environmental_quality := 75 }

/-- `get_address_data(address)` (src/main.py 85-88). -/
def get_address_data (address_details : DetailsOrMsg) (w : CollabWorld) :
    Except PyErr MetricRecord :=
  get_neighbourhood_data address_details w

/-- One entry of the batch result list (src/main.py 390). -/
structure BatchEntry where
  address : String
  data : EvaluationResult
deriving DecidableEq, Repr

/-- `get_algorithm_results(addresses)` (src/main.py 387-393). -/
def get_algorithm_results (addresses : List (String × MetricRecord)) : List BatchEntry :=
  addresses.map fun a => { address := a.1, data := evaluate_neighborhood a.2 }

/-- The collaborators of one batch request: the nominatim response for each
requested address string, and the metric collaborators' responses for the
pipeline run on that address. -/
structure Env where
  geo : String → ApiResponse (List NominatimResult)
  collab : String → CollabWorld

/-- The first loop of `get_many_addresses_probability` (src/main.py 54-59):
validate every address in order, pairing each input string with the
string-or-dict the validator returned; the first raised exception aborts. -/
def validateAll (geo : String → ApiResponse (List NominatimResult)) :
    List String → Except PyErr (List (String × DetailsOrMsg))
  | [] => .ok []
  | a :: rest =>
    match get_valid_address_details a (geo a) with
    | .error e => .error e
    | .ok d =>
      match validateAll geo rest with
      | .error e => .error e
      | .ok tail => .ok ((a, d) :: tail)

/-- The second loop (src/main.py 61-62): fetch the metric record for every
stored `details` value, valid or not; the first raised exception aborts. -/
def fetchAll (collab : String → CollabWorld) :
    List (String × DetailsOrMsg) → Except PyErr (List (String × MetricRecord))
  | [] => .ok []
  | p :: rest =>
    match get_address_data p.2 (collab p.1) with
    | .error e => .error e
    | .ok r =>
      match fetchAll collab rest with
      | .error e => .error e
      | .ok tail => .ok ((p.1, r) :: tail)

/-- `get_many_addresses_probability(requested_addresses)` (src/main.py
38-64): validate all, fetch data for all, then score all. -/
def get_many_addresses_probability (requested_addresses : List String) (env : Env) :
    Except PyErr (List BatchEntry) :=
  match validateAll env.geo requested_addresses with
  | .error e => .error e
  | .ok all_addresses =>
    match fetchAll env.collab all_addresses with
    | .error e => .error e
    | .ok withData => .ok (get_algorithm_results withData)

/-! ## Concrete oracle values used by witnesses and counterexamples -/

/-- Every collaborator unreachable. -/
def failWorld : CollabWorld :=
  { locResp := .transportError, detResp := .transportError, fuzzyCode := none,
    popResp := .transportError, areaResp := .transportError,
    crimeResp := .transportError, overpassResp := .transportError }

/-- A batch environment whose geocoder finds nothing for any address. -/
def envNotFound : Env := { geo := fun _ => .response 200 [], collab := fun _ => failWorld }

/-- A nominatim result of accepted granularity. -/
def goodGeoResult : NominatimResult :=
  { address := { country := none }, lat := "51.5", lon := "-0.1", type := "residential" }

/-- A world where the density collaborators are down (density falls back to
5000), the crime API times out (crime falls back to 25) and Overpass
returns an empty building list (ratio 0.0). -/
def quietWorld : CollabWorld :=
  { locResp := .transportError, detResp := .transportError, fuzzyCode := none,
    popResp := .transportError, areaResp := .transportError,
    crimeResp := .transportError,
    overpassResp := .response 200 { elements := [] } }

/-- A batch environment in which every address validates and every metric
fetch completes (via fallbacks where a collaborator is down). -/
def envGood : Env := { geo := fun _ => .response 200 [goodGeoResult], collab := fun _ => quietWorld }

/-- The metric record `envGood`'s pipeline produces for any address. -/
def fallbackRecord : MetricRecord :=
  { population_density := 5000, crime_rate := 25, income := 60000, residential_ratio := 0,
    noise_level := 30, healthcare_access := 85, community_engagement := 70,
    environmental_quality := 75 }

/-- C1: `evaluate_neighborhood` scores every full record by the spec's
weighted sum `Σ weight[k] * normalized[k]` over the 8 keys, and the golden
record {5000, 50, 60000, 0.8, 30, 85, 70, 75} yields the one fixed total
539989/643500. -/
theorem C1_score_is_weighted_sum :
    (∀ data : MetricRecord, (evaluate_neighborhood data).score = spec_weighted_sum data) ∧
    (evaluate_neighborhood goldenRecord).score = 539989 / 643500 := by
  constructor
  · intro data
    simp only [evaluate_neighborhood, spec_weighted_sum, Metric.all, CRITERIA_WEIGHTS,
      spec_weight, NORMALIZATION_TABLE, normalized_scores, MetricRecord.get,
      List.map_cons, List.map_nil, List.sum_cons, List.sum_nil]
    norm_num
  · norm_num [evaluate_neighborhood, Metric.all, CRITERIA_WEIGHTS, normalized_scores,
      normalize, goldenRecord, List.sum_cons]

/-- C2: `calculate_rating` returns "Excellent" iff score ≥ 1.5, "Good" iff
0.8 ≤ score < 1.5, "Average" iff 0.4 ≤ score < 0.8, "Poor" iff
0.2 ≤ score < 0.4, and "Very Poor" otherwise; the spec's boundary examples
evaluate as stated. -/
theorem C2_rating_thresholds :
    (∀ score : ℚ,
      (calculate_rating score = "Excellent" ↔ 1.5 ≤ score) ∧
      (calculate_rating score = "Good" ↔ 0.8 ≤ score ∧ score < 1.5) ∧
      (calculate_rating score = "Average" ↔ 0.4 ≤ score ∧ score < 0.8) ∧
      (calculate_rating score = "Poor" ↔ 0.2 ≤ score ∧ score < 0.4) ∧
      (calculate_rating score = "Very Poor" ↔ score < 0.2)) ∧
    calculate_rating 1.5 = "Excellent" ∧ calculate_rating 1.4999 = "Good" ∧
    calculate_rating 0.8 = "Good" ∧ calculate_rating 0.4 = "Average" ∧
    calculate_rating 0.2 = "Poor" ∧ calculate_rating 0.1999 = "Very Poor" := by
  refine ⟨fun score => ?_, by norm_num [calculate_rating]⟩
  unfold calculate_rating
  split_ifs with h1 h2 h3 h4 <;>
    refine ⟨?_, ?_, ?_, ?_, ?_⟩ <;> simp <;>
      first
        | (intros; linarith)
        | (constructor <;> linarith)

/-- C7: `normalize` performs no clamping — a value above `max_val` yields a
result above 1 (below 0 when inverted), a value below `min_val` yields a
result below 0 (above 1 when inverted); in particular
`normalize 600 0 500 true = -0.2` exactly. -/
theorem C7_no_clamping (v min_val max_val : ℚ) (hlt : min_val < max_val) :
    (max_val < v → 1 < normalize v min_val max_val false ∧
      normalize v min_val max_val true < 0) ∧
    (v < min_val → normalize v min_val max_val false < 0 ∧
      1 < normalize v min_val max_val true) ∧
    normalize 600 0 500 true = -0.2 := by
  have hpos : 0 < max_val - min_val := by linarith
  refine ⟨fun hv => ?_, fun hv => ?_, by norm_num [normalize]⟩
  · have h1 : 1 < (v - min_val) / (max_val - min_val) :=
      (one_lt_div hpos).mpr (by linarith)
    exact ⟨by simpa [normalize] using h1, by simp only [normalize, if_true]; linarith⟩
  · have h0 : (v - min_val) / (max_val - min_val) < 0 :=
      div_neg_of_neg_of_pos (by linarith) hpos
    exact ⟨by simpa [normalize] using h0, by simp only [normalize, if_true]; linarith⟩

/-- Closed instance of C7 at `v = 600`, `min_val = 0`, `max_val = 500`. -/
theorem C7_no_clamping_witness :
    1 < normalize 600 0 500 false ∧ normalize 600 0 500 true < 0 := by
  exact (C7_no_clamping 600 0 500 (by norm_num)).1 (by norm_num)

/-- C8: the eight fixed weights sum to 1.2 (not 1), and whenever every
normalized metric of a record lies in [0,1] the total score of
`evaluate_neighborhood` is at most 1.2. -/
theorem C8_weights_sum_and_bound :
    (Metric.all.map CRITERIA_WEIGHTS).sum = 1.2 ∧
    ∀ data : MetricRecord,
      (∀ k : Metric, 0 ≤ normalized_scores data k ∧ normalized_scores data k ≤ 1) →
      (evaluate_neighborhood data).score ≤ 1.2 := by
  constructor
  · norm_num [Metric.all, CRITERIA_WEIGHTS]
  · intro data h
    have h1 := h .population_density
    have h2 := h .crime_rate
    have h3 := h .income
    have h4 := h .residential_ratio
    have h5 := h .noise_level
    have h6 := h .healthcare_access
    have h7 := h .community_engagement
    have h8 := h .environmental_quality
    simp only [evaluate_neighborhood, Metric.all, CRITERIA_WEIGHTS, List.map_cons,
      List.map_nil, List.sum_cons, List.sum_nil]
    norm_num
    nlinarith [h1.1, h1.2, h2.1, h2.2, h3.1, h3.2, h4.1, h4.2, h5.1, h5.2,
      h6.1, h6.2, h7.1, h7.2, h8.1, h8.2]

/-! ## Helper lemmas about the embedded pipeline -/

/-- An `Except` value that `isOk` is an `.ok`. -/
theorem exists_ok_of_isOk {α : Type} {x : Except PyErr α} (h : x.isOk = true) :
    ∃ v, x = .ok v := by
  cases x with
  | error e => simp [Except.isOk, Except.toBool] at h
  | ok v => exact ⟨v, rfl⟩

/-- A list that is an infix of `l₂` is an infix of `pre ++ l₂`. -/
theorem infix_append_left_of_infix {l₁ l₂ : List Char} (pre : List Char)
    (h : l₁ <:+: l₂) : l₁ <:+: pre ++ l₂ :=
  h.trans (List.suffix_append pre l₂).isInfix

/-- On a validated details dict, `get_urban_area_density` absorbs every
collaborator failure: it always returns a value (possibly `none`). -/
theorem urban_area_density_isOk (d : AddressDetails) (locResp : ApiResponse LocationsJson)
    (detResp : ApiResponse DetailsJson) :
    (get_urban_area_density (.details d) locResp detResp).isOk = true := by
  unfold get_urban_area_density DetailsOrMsg.pyGet
  simp only [reduceIte]
  split
  · rfl
  · cases get_and_raise_for_status locResp with
    | error e => rfl
    | ok data =>
      simp only
      split
      · rfl
      · cases get_and_raise_for_status detResp with
        | error e => rfl
        | ok details =>
          simp only
          split <;> rfl

/-- On a validated details dict, `get_country_density` absorbs every
collaborator failure: it always returns a value (possibly `none`). -/
theorem country_density_isOk (d : AddressDetails) (fuzzyCode : FuzzyLookup)
    (popResp areaResp : ApiResponse WBJson) :
    (get_country_density (.details d) fuzzyCode popResp areaResp).isOk = true := by
  unfold get_country_density DetailsOrMsg.pyGet
  simp only [reduceIte]
  split
  · rfl
  · cases fuzzyCode with
    | none => rfl
    | some c =>
      simp only
      cases get_and_raise_for_status popResp with
      | error e => rfl
      | ok pop_data =>
        simp only
        cases hw : wbValue pop_data with
        | error e => rfl
        | ok population =>
          simp only
          cases get_and_raise_for_status areaResp with
          | error e => rfl
          | ok area_data =>
            simp only
            cases wbValue area_data with
            | error e => rfl
            | ok area => simp only; split <;> rfl

/-- Fetching a metric record for a rejection-message string raises
`AttributeError` at the first `.get` (src/main.py 148, via lines 62, 88,
326, 139). -/
theorem get_address_data_msg (m : String) (w : CollabWorld) :
    get_address_data (.msg m) w = .error .attributeError := rfl

/-- The validation loop pairs each input address, in order, with what the
validator returned for it. -/
theorem validateAll_names (geo : String → ApiResponse (List NominatimResult)) :
    ∀ l v, validateAll geo l = .ok v → v.map Prod.fst = l := by
  intro l
  induction l with
  | nil =>
    intro v h
    simp only [validateAll] at h
    cases h
    rfl
  | cons a rest ih =>
    intro v h
    simp only [validateAll] at h
    cases hd : get_valid_address_details a (geo a) with
    | error e => rw [hd] at h; cases h
    | ok d =>
      rw [hd] at h
      cases ht : validateAll geo rest with
      | error e => rw [ht] at h; cases h
      | ok tail =>
        rw [ht] at h
        cases h
        simp [ih tail ht]

/-- Every validated input appears in the validation loop's output with the
validator's result. -/
theorem validateAll_mem (geo : String → ApiResponse (List NominatimResult)) :
    ∀ l v, validateAll geo l = .ok v →
      ∀ a ∈ l, ∃ d, (a, d) ∈ v ∧ get_valid_address_details a (geo a) = .ok d := by
  intro l
  induction l with
  | nil => intro v _ a ha; cases ha
  | cons b rest ih =>
    intro v h a ha
    simp only [validateAll] at h
    cases hd : get_valid_address_details b (geo b) with
    | error e => rw [hd] at h; cases h
    | ok d =>
      rw [hd] at h
      cases ht : validateAll geo rest with
      | error e => rw [ht] at h; cases h
      | ok tail =>
        rw [ht] at h
        cases h
        rcases List.mem_cons.mp ha with rfl | hmem
        · exact ⟨d, List.mem_cons_self _ _, hd⟩
        · obtain ⟨d', hd'⟩ := ih tail ht a hmem
          exact ⟨d', List.mem_cons_of_mem _ hd'.1, hd'.2⟩

/-- The data loop keeps the address names and their order. -/
theorem fetchAll_names (collab : String → CollabWorld) :
    ∀ v w, fetchAll collab v = .ok w → w.map Prod.fst = v.map Prod.fst := by
  intro v
  induction v with
  | nil =>
    intro w h
    simp only [fetchAll] at h
    cases h
    rfl
  | cons p rest ih =>
    intro w h
    simp only [fetchAll] at h
    cases hd : get_address_data p.2 (collab p.1) with
    | error e => rw [hd] at h; cases h
    | ok r =>
      rw [hd] at h
      cases ht : fetchAll collab rest with
      | error e => rw [ht] at h; cases h
      | ok tail =>
        rw [ht] at h
        cases h
        simp [ih tail ht]

/-- When the data loop completes, every stored details value admitted a
metric fetch without a raised exception. -/
theorem fetchAll_ok_of_mem (collab : String → CollabWorld) :
    ∀ v w, fetchAll collab v = .ok w →
      ∀ p ∈ v, ∃ r, get_address_data p.2 (collab p.1) = .ok r := by
  intro v
  induction v with
  | nil => intro w _ p hp; cases hp
  | cons q rest ih =>
    intro w h p hp
    simp only [fetchAll] at h
    cases hd : get_address_data q.2 (collab q.1) with
    | error e => rw [hd] at h; cases h
    | ok r =>
      rw [hd] at h
      cases ht : fetchAll collab rest with
      | error e => rw [ht] at h; cases h
      | ok tail =>
        rcases List.mem_cons.mp hp with rfl | hmem
        · exact ⟨r, hd⟩
        · exact ih tail ht p hmem

/-! ## The claims -/

/-- C3 counterexample: a non-success HTTP status (503) from the crime
collaborator propagates out of `get_crime_score` as a fastapi
`HTTPException` — the `except requests.exceptions.RequestException` clause
does not catch it — rather than the documented fallback 25. -/
theorem C3_counterexample :
    get_crime_score (.details ⟨none, some "51.5", some "-0.1"⟩) (.response 503 []) =
      .error (.httpException 503) := rfl

/-- C3 amended: on a validated details dict, the population-density provider
absorbs every collaborator failure; the crime provider falls back to 25 on a
transport error or timeout, but a non-success HTTP status propagates as an
`HTTPException` when coordinates are present; the residential-ratio provider
propagates every `call_api` failure unhandled. -/
theorem C3_provider_error_policy :
    (∀ (d : AddressDetails) (locResp : ApiResponse LocationsJson)
        (detResp : ApiResponse DetailsJson) (fuzzyCode : FuzzyLookup)
        (popResp areaResp : ApiResponse WBJson),
      ∃ v, get_population_density_score (.details d) locResp detResp
          fuzzyCode popResp areaResp = .ok v) ∧
    (∀ d : AddressDetails, get_crime_score (.details d) .transportError = .ok 25) ∧
    (∀ (d : AddressDetails) (status : Nat) (body : List Unit), status ≠ 200 →
      strTruthy d.lat = true → strTruthy d.lon = true →
      get_crime_score (.details d) (.response status body) = .error (.httpException status)) ∧
    (∀ (d : AddressDetails) (resp : ApiResponse OverpassJson) (e : PyErr),
      call_api resp = .error e → get_residential_ratio (.details d) resp = .error e) := by
  refine ⟨?_, ?_, ?_, ?_⟩
  · intro d locResp detResp fuzzyCode popResp areaResp
    obtain ⟨o, ho⟩ := exists_ok_of_isOk (urban_area_density_isOk d locResp detResp)
    unfold get_population_density_score
    rw [ho]
    cases o with
    | some density => exact ⟨density, rfl⟩
    | none =>
      obtain ⟨o₂, ho₂⟩ := exists_ok_of_isOk (country_density_isOk d fuzzyCode popResp areaResp)
      rw [ho₂]
      exact ⟨o₂.getD 5000, rfl⟩
  · intro d
    simp only [get_crime_score, DetailsOrMsg.pyGet]
    split <;> rfl
  · intro d status body hs hlat hlon
    simp only [get_crime_score, DetailsOrMsg.pyGet, call_api]
    simp [hlat, hlon, hs]
  · intro d resp e h
    simp only [get_residential_ratio, DetailsOrMsg.pyGet]
    rw [h]

/-- C4 counterexample: on the batch `["x"]` whose geocoder finds nothing,
`get_many_addresses_probability` raises an `AttributeError` (the rejection
message string reaches `.get('lat')`) instead of returning a one-entry
result list. -/
theorem C4_counterexample :
    get_many_addresses_probability ["x"] envNotFound = .error .attributeError := rfl

/-- C4 amended: whenever `get_many_addresses_probability` returns a result
list (rather than raising), that list has exactly one entry per input
address, in input order, each entry's `address` field equal to the
corresponding input string. -/
theorem C4_batch_preserves_addresses (requested : List String) (env : Env)
    (results : List BatchEntry)
    (h : get_many_addresses_probability requested env = .ok results) :
    results.map BatchEntry.address = requested := by
  unfold get_many_addresses_probability at h
  cases hv : validateAll env.geo requested with
  | error e => rw [hv] at h; cases h
  | ok v =>
    rw [hv] at h
    dsimp only at h
    cases hf : fetchAll env.collab v with
    | error e => rw [hf] at h; cases h
    | ok w =>
      rw [hf] at h
      cases h
      have h1 := validateAll_names env.geo requested v hv
      have h2 := fetchAll_names env.collab v w hf
      calc (get_algorithm_results w).map BatchEntry.address
          = w.map Prod.fst := by simp [get_algorithm_results]
        _ = v.map Prod.fst := h2
        _ = requested := h1

/-- Closed instance of the amended C4: the successful batch `["a"]` under
`envGood` reproduces its input list as the `address` fields. -/
theorem C4_batch_witness :
    (get_algorithm_results [("a", fallbackRecord)]).map BatchEntry.address = ["a"] :=
  C4_batch_preserves_addresses ["a"] envGood (get_algorithm_results [("a", fallbackRecord)]) rfl

/-- C5: the validator accepts a geocoded result iff its place type is
`residential`, `postcode` or `city`, returning details with lat and lon
populated; an empty geocoding result yields a rejection message containing
"not found", a result of any other place type yields a rejection message
containing "invalid"; both rejections are returned as values, not raised. -/
theorem C5_validator_place_type_gate (address : String)
    (nomResp : ApiResponse (List NominatimResult)) :
    (∀ (result : NominatimResult) (rest : List NominatimResult),
      call_api nomResp = .ok (result :: rest) →
      ((result.type ∈ ["residential", "postcode", "city"] →
        get_valid_address_details address nomResp = .ok (.details
          { country := result.address.country, lat := some result.lat,
            lon := some result.lon })) ∧
       (result.type ∉ ["residential", "postcode", "city"] →
        ∃ m, get_valid_address_details address nomResp = .ok (.msg m) ∧
          "invalid".data <:+: m.data))) ∧
    (call_api nomResp = .ok [] →
      ∃ m, get_valid_address_details address nomResp = .ok (.msg m) ∧
        "not found".data <:+: m.data) ∧
    (∀ d : AddressDetails, get_valid_address_details address nomResp = .ok (.details d) →
      ∃ result rest, call_api nomResp = .ok (result :: rest) ∧
        result.type ∈ ["residential", "postcode", "city"] ∧
        d.lat = some result.lat ∧ d.lon = some result.lon) := by
  refine ⟨?_, ?_, ?_⟩
  · intro result rest h
    constructor
    · intro hmem
      unfold get_valid_address_details get_address_details
      rw [h]
      simp [hmem]
    · intro hmem
      refine ⟨"The address: " ++ address ++ " is invalid, please enter a residential address",
        ?_, ?_⟩
      · unfold get_valid_address_details get_address_details
        rw [h]
        simp [hmem]
      · rw [String.data_append]
        exact infix_append_left_of_infix _ (by decide)
  · intro h
    refine ⟨"The address: " ++ address ++ " was not found", ?_, ?_⟩
    · unfold get_valid_address_details get_address_details
      rw [h]
      rfl
    · rw [String.data_append]
      exact infix_append_left_of_infix _ (by decide)
  · intro d h
    unfold get_valid_address_details get_address_details at h
    cases hc : call_api nomResp with
    | error e => rw [hc] at h; cases h
    | ok data =>
      rw [hc] at h
      cases data with
      | nil => cases h
      | cons result rest =>
        dsimp only at h
        by_cases hmem : result.type ∈ ["residential", "postcode", "city"]
        · rw [if_pos hmem] at h
          cases h
          exact ⟨result, rest, rfl, hmem, rfl, rfl⟩
        · rw [if_neg hmem] at h
          cases h

/-- C6: in the batch path a validation rejection is stored as the address's
details and handed, unguarded, to metric fetching, where the string's
missing `.get` raises `AttributeError`; a batch containing any rejected
address therefore errors, and a batch that returns results validated every
input address. -/
theorem C6_batch_rejection_unguarded :
    (∀ (m : String) (w : CollabWorld),
      get_address_data (.msg m) w = .error .attributeError) ∧
    (∀ (name : String) (env : Env) (m : String),
      get_valid_address_details name (env.geo name) = .ok (.msg m) →
      get_many_addresses_probability [name] env = .error .attributeError) ∧
    (∀ (requested : List String) (env : Env) (results : List BatchEntry),
      get_many_addresses_probability requested env = .ok results →
      ∀ a ∈ requested, ∃ d, get_valid_address_details a (env.geo a) = .ok (.details d)) := by
  refine ⟨fun m w => get_address_data_msg m w, ?_, ?_⟩
  · intro name env m h
    unfold get_many_addresses_probability validateAll fetchAll
    rw [h]
    simp [validateAll, get_address_data_msg]
  · intro requested env results h a ha
    unfold get_many_addresses_probability at h
    cases hv : validateAll env.geo requested with
    | error e => rw [hv] at h; cases h
    | ok v =>
      rw [hv] at h
      dsimp only at h
      cases hf : fetchAll env.collab v with
      | error e => rw [hf] at h; cases h
      | ok w =>
        obtain ⟨d, hdv, hd⟩ := validateAll_mem env.geo requested v hv a ha
        obtain ⟨r, hr⟩ := fetchAll_ok_of_mem env.collab v w hf (a, d) hdv
        cases d with
        | msg m => rw [get_address_data_msg] at hr; cases hr
        | details dd => exact ⟨dd, hd⟩

/-- C9: when the urban-area density lookup and the country-level density
lookup both return no value, `get_population_density_score` returns exactly
the constant 5000. -/
theorem C9_density_double_fallback (address_details : DetailsOrMsg)
    (locResp : ApiResponse LocationsJson) (detResp : ApiResponse DetailsJson)
    (fuzzyCode : FuzzyLookup) (popResp areaResp : ApiResponse WBJson)
    (hu : get_urban_area_density address_details locResp detResp = .ok none)
    (hc : get_country_density address_details fuzzyCode popResp areaResp = .ok none) :
    get_population_density_score address_details locResp detResp fuzzyCode
      popResp areaResp = .ok 5000 := by
  unfold get_population_density_score
  rw [hu, hc]
  rfl

/-- Closed instance of C9: with no coordinates, no country and every
collaborator down, the density resolves to 5000. -/
theorem C9_density_witness :
    get_population_density_score (.details ⟨none, none, none⟩) .transportError
      .transportError none .transportError .transportError = .ok 5000 :=
  C9_density_double_fallback _ _ _ _ _ _ rfl rfl

/-- C10: on any building-footprint response the provider returns 0.0 for an
empty building list (no division by zero) and otherwise the count of
residential-tagged buildings divided by the total count. -/
theorem C10_residential_ratio_value (d : AddressDetails)
    (resp : ApiResponse OverpassJson) (data : OverpassJson)
    (h : call_api resp = .ok data) :
    get_residential_ratio (.details d) resp =
      .ok (if buildingTags data = [] then 0
        else ((buildingTags data).countP isResidentialB : ℚ) /
          ((buildingTags data).length : ℚ)) := by
  unfold get_residential_ratio DetailsOrMsg.pyGet
  rw [h]
  by_cases he : buildingTags data = []
  · simp [he]
  · have hlen : 0 < (buildingTags data).length := List.length_pos.mpr he
    simp [he, hlen, List.isEmpty_iff]

/-- Closed instance of C10: two buildings, one tagged `House`, give ratio
count/total = 1/2. -/
theorem C10_residential_witness :
    get_residential_ratio (.details ⟨none, none, none⟩)
        (.response 200 ⟨[⟨some "House"⟩, ⟨none⟩]⟩) =
      .ok (if buildingTags ⟨[⟨some "House"⟩, ⟨none⟩]⟩ = [] then 0
        else ((buildingTags ⟨[⟨some "House"⟩, ⟨none⟩]⟩).countP isResidentialB : ℚ) /
          ((buildingTags ⟨[⟨some "House"⟩, ⟨none⟩]⟩).length : ℚ)) :=
  C10_residential_ratio_value ⟨none, none, none⟩ _ _ rfl

end Main
